import Mathlib

/-!
Shallow embedding of `pkg/models/observability/monitoring/monitoring.go`
(KubeNoOps/kubesphere): the monitoring operator that forwards metric queries
to an injected backend client and assembles cluster/workspace entity counts.

Modelling conventions:
* `time.Time` and `time.Duration` become `Int` (Unix seconds); the `float64`
  sample values produced here are all collection lengths, so they become `Nat`.
* A Kubernetes list call `List(...)` returning `(list, err)` becomes a pair
  `List α × Option String`; `some e` models a non-nil error whose `Error()`
  is `e`.
* The backend client `monitoring.Interface` is passed in as explicit function
  parameters (the operator holds it as an injected reference).
* The rewrite registry `expressions.ReplaceNamespaceFns` (a Go map from
  backend kind to rewrite function) becomes `String → Option ReplaceNamespaceFn`:
  `none` models the zero value (nil function) returned when the kind is not
  registered; invoking that nil function panics in Go, which the embedding
  records as a `none` result (the call does not return a value).
* `GetMetricLabelSet` is instrumented: besides its result it returns the list
  of `klog.Error` messages emitted and the list of backend label-set lookups
  performed, so that claims about logging and non-invocation are statable.
-/

namespace KubeSphereMonitoring

/-- Label key constants (`constants.WorkspaceLabelKey`, `v1alpha2.UserReferenceLabel`);
the exact string values are immaterial to the claims. -/
def WorkspaceLabelKey : String := "kubesphere.io/workspace"

def UserReferenceLabel : String := "iam.kubesphere.io/user-ref"

/-- The metric-name constants used by the stats collectors. -/
def KubeSphereClusterCount : String := "kubesphere_cluster_count"

def KubeSphereWorkspaceCount : String := "kubesphere_workspace_count"

def KubeSphereUserCount : String := "kubesphere_user_count"

def WorkspaceNamespaceCount : String := "workspace_namespace_count"

def WorkspaceDevopsCount : String := "workspace_devops_project_count"

def WorkspaceMemberCount : String := "workspace_member_count"

def WorkspaceRoleCount : String := "workspace_role_count"

def MetricTypeVector : String := "vector"

/-- A `monitoring.Point`: (timestamp, value) sample. -/
structure Point where
  timestamp : Int
  value : Nat
deriving DecidableEq

/-- A `monitoring.MetricValue`; the operator only ever fills `Sample`. -/
structure MetricValue where
  sample : Option Point := none
deriving DecidableEq

/-- The `monitoring.MetricData` struct; zero value has empty type and no values. -/
structure MetricData where
  metricType : String := ""
  metricValues : List MetricValue := []
deriving DecidableEq

/-- The `monitoring.Metric` struct: a name plus either data or an error string
(Go zero value of `Error` is the empty string). -/
structure Metric where
  metricName : String := ""
  metricData : MetricData := {}
  error : String := ""
deriving DecidableEq

/-- The response envelope `Metrics{Results: ...}`. -/
structure Metrics where
  results : List Metric := []
deriving DecidableEq

/-- Opaque payload of a backend label-set lookup (`[]map[string]string`-shaped). -/
abbrev LabelSetData := List (List (String × String))

/-- The `MetricLabelSet` response wrapper; the Go zero value `MetricLabelSet{}`
has nil `Data`, modelled as the empty list. -/
structure MetricLabelSet where
  data : LabelSetData := []
deriving DecidableEq

/-- The backend's `QueryOption` is opaque to the operator and passed through
verbatim; its content is irrelevant here. -/
abbrev QueryOption := Unit

/-! ### Query façade: GetMetric / GetMetricOverTime / batched named metrics -/

/-- `monitoringOperator.GetMetric`: `return mo.prometheus.GetMetric(expr, time), nil`.
The backend's instant-query method is the parameter `backendGetMetric`. -/
def GetMetric (backendGetMetric : String → Int → Metric)
    (expr ns : String) (t : Int) : Metric × Option String :=
  (backendGetMetric expr t, none)

/-- `monitoringOperator.GetMetricOverTime`:
`return mo.prometheus.GetMetricOverTime(expr, start, end, step), nil`. -/
def GetMetricOverTime (backendGetMetricOverTime : String → Int → Int → Int → Metric)
    (expr ns : String) (start endT step : Int) : Metric × Option String :=
  (backendGetMetricOverTime expr start endT step, none)

/-- `monitoringOperator.GetNamedMetrics`: delegates the whole batch to the
backend and wraps the result slice in `Metrics`. -/
def GetNamedMetrics (backendGetNamedMetrics : List String → Int → QueryOption → List Metric)
    (metrics : List String) (t : Int) (opt : QueryOption) : Metrics :=
  { results := backendGetNamedMetrics metrics t opt }

/-- `monitoringOperator.GetNamedMetricsOverTime`: range form of the batch. -/
def GetNamedMetricsOverTime
    (backendGetNamedMetricsOverTime : List String → Int → Int → Int → QueryOption → List Metric)
    (metrics : List String) (start endT step : Int) (opt : QueryOption) : Metrics :=
  { results := backendGetNamedMetricsOverTime metrics start endT step opt }

/-- Modelled from the spec: the backend client's batched named-metric lookup
(package `pkg/simple/client/observability/monitoring`, not under src/).
The spec says the batch "batches named lookups; order preserved; errors
isolated per name", so each requested name is resolved independently to
either a data-carrying element or an error-carrying element, in input order. -/
def backendBatchNamedMetrics (query : String → Except String MetricData)
    (names : List String) : List Metric :=
  names.map (fun n =>
    match query n with
    | Except.ok d => { metricName := n, metricData := d }
    | Except.error e => { metricName := n, error := e })

/-! ### GetMetricLabelSet and the namespace rewrite registry -/

/-- `expressions.ReplaceNamespaceFn`: `(expr, ns) -> (expr, error)`. -/
abbrev ReplaceNamespaceFn := String → String → Except String String

/-- A recorded backend label-set invocation `GetMetricLabelSet(expr, start, end)`. -/
structure LabelSetCall where
  expr : String
  start : Int
  endT : Int
deriving DecidableEq

/-- The observable outcome of one `GetMetricLabelSet` call: the returned value
(`none` models the Go panic from invoking a nil rewrite function, i.e. the
call never returns), the `klog.Error` messages emitted, and the backend
lookups performed. -/
structure LabelSetOutcome where
  result : Option MetricLabelSet
  logged : List String
  backendCalls : List LabelSetCall
deriving DecidableEq

/-- `monitoringOperator.GetMetricLabelSet`. Source shape:
if the namespace is non-empty, the expression is rewritten through
`expressions.ReplaceNamespaceFns["prometheus"]`; a rewrite error is logged
and the zero `MetricLabelSet{}` returned; otherwise the (possibly rewritten)
expression is sent to the backend lookup and wrapped. Indexing the registry
map at an unregistered kind yields Go's nil function; calling it panics,
recorded here as `result := none`. -/
def GetMetricLabelSet (replaceNamespaceFns : String → Option ReplaceNamespaceFn)
    (backendGetMetricLabelSet : String → Int → Int → LabelSetData)
    (metric ns : String) (start endT : Int) : LabelSetOutcome :=
  if ns ≠ "" then
    match replaceNamespaceFns "prometheus" with
    | none => { result := none, logged := [], backendCalls := [] }
    | some f =>
      match f metric ns with
      | Except.error err =>
        { result := some {}, logged := [err], backendCalls := [] }
      | Except.ok expr =>
        { result := some { data := backendGetMetricLabelSet expr start endT },
          logged := [],
          backendCalls := [{ expr := expr, start := start, endT := endT }] }
  else
    { result := some { data := backendGetMetricLabelSet metric start endT },
      logged := [],
      backendCalls := [{ expr := metric, start := start, endT := endT }] }

/-! ### Entity counters -/

/-- A Kubernetes list call's outcome: the returned collection and the error. -/
abbrev ListResult (α : Type) := List α × Option String

/-- The success-branch element built by both stats collectors: a vector metric
with a single `(now, count)` sample. -/
def countMetric (name : String) (now : Int) (v : Nat) : Metric :=
  { metricName := name,
    metricData :=
      { metricType := MetricTypeVector,
        metricValues := [{ sample := some { timestamp := now, value := v } }] } }

/-- The failure-branch element: name plus `err.Error()`, zero `MetricData`. -/
def errorMetric (name err : String) : Metric :=
  { metricName := name, error := err }

/-- The per-kind append pattern both stats collectors repeat for every kind:
`if err != nil` append the error element, `else` append the count element. -/
def statElem (name : String) (now : Int) (v : Nat) : Option String → Metric
  | some err => errorMetric name err
  | none => countMetric name now v

/-- `monitoringOperator.GetKubeSphereStats`: lists clusters, workspace
templates and users (each with `labels.Everything()`), emitting one element
per kind in that order; the cluster count is floored at 1; a failed list
yields an error element for that kind only. `now` is captured once at entry. -/
def GetKubeSphereStats (now : Int)
    (clusterList wkList usrList : ListResult Unit) : Metrics :=
  let clusterTotal := clusterList.1.length
  let clusterTotal := if clusterTotal = 0 then 1 else clusterTotal
  let r1 := statElem KubeSphereClusterCount now clusterTotal clusterList.2
  let r2 := statElem KubeSphereWorkspaceCount now wkList.1.length wkList.2
  let r3 := statElem KubeSphereUserCount now usrList.1.length usrList.2
  { results := [r1, r2, r3] }

/-- A labelled Kubernetes object, reduced to its label map. -/
structure KObject where
  objLabels : List (String × String)
deriving DecidableEq

/-- Look up a label key on an object. -/
def getLabel (o : KObject) (k : String) : Option String :=
  (o.objLabels.find? (fun p => p.1 == k)).map (fun p => p.2)

/-- `labels.SelectorFromSet{WorkspaceLabelKey: workspace}`: equality selector. -/
def matchesSelector (workspace : String) (o : KObject) : Bool :=
  getLabel o WorkspaceLabelKey == some workspace

/-- The `Exists` requirement on `UserReferenceLabel`. -/
def hasUserReference (o : KObject) : Bool :=
  (getLabel o UserReferenceLabel).isSome

/-- A list call with a label selector: on success it returns the objects of
the store matching the selector; on failure the injected error. -/
def listWithSelector (store : List KObject) (err : Option String)
    (sel : KObject → Bool) : ListResult KObject :=
  match err with
  | some e => ([], some e)
  | none => (store.filter sel, none)

/-- `monitoringOperator.GetWorkspaceStats`: lists namespaces, DevOps projects,
workspace role bindings (workspace selector plus `Exists(UserReferenceLabel)`)
and workspace roles, all selected by the workspace label-equality selector,
emitting one element per kind in that order; a failed list yields an error
element for that kind only. `now` is captured once at entry. Each store is the
full collection held by the state store; the injected `Option String` is that
list call's error. -/
def GetWorkspaceStats (workspace : String) (now : Int)
    (nsStore devopsStore memberStore roleStore : List KObject)
    (nsErr devopsErr memberErr roleErr : Option String) : Metrics :=
  let selector := matchesSelector workspace
  let nsList := listWithSelector nsStore nsErr selector
  let r1 := statElem WorkspaceNamespaceCount now nsList.1.length nsList.2
  let devopsList := listWithSelector devopsStore devopsErr selector
  let r2 := statElem WorkspaceDevopsCount now devopsList.1.length devopsList.2
  let memberSelector := fun o => selector o && hasUserReference o
  let memberList := listWithSelector memberStore memberErr memberSelector
  let r3 := statElem WorkspaceMemberCount now memberList.1.length memberList.2
  let roleList := listWithSelector roleStore roleErr selector
  let r4 := statElem WorkspaceRoleCount now roleList.1.length roleList.2
  { results := [r1, r2, r3, r4] }

/-- The member count as the spec words it: the number of DISTINCT user
references among the role bindings selected by the workspace selector
together with the user-reference-exists requirement. Stated from the claim's
words, for comparison with the code's binding count. -/
def distinctMemberCount (workspace : String) (memberStore : List KObject) : Nat :=
  (((memberStore.filter
      (fun o => matchesSelector workspace o && hasUserReference o)).filterMap
        (fun o => getLabel o UserReferenceLabel)).dedup).length

/-! ### Concrete instances used by witnesses and counterexamples -/

/-- A rewrite function that always fails. -/
def failingReplaceFn : ReplaceNamespaceFn := fun _ _ => Except.error "bad"

/-- A registry whose every kind maps to the failing rewrite function. -/
def failingRegistry : String → Option ReplaceNamespaceFn := fun _ => some failingReplaceFn

/-- A registry with no rewrite function registered for any kind. -/
def emptyRegistry : String → Option ReplaceNamespaceFn := fun _ => none

/-- A concrete backend label-set lookup. -/
def constBackend : String → Int → Int → LabelSetData := fun _ _ _ => [[("job", "node")]]

/-- A concrete per-name query that always succeeds. -/
def qOk : String → Except String MetricData := fun _ => Except.ok {}

/-- A concrete per-name query that fails exactly on the name "b". -/
def qFailB : String → Except String MetricData :=
  fun n => if n == "b" then Except.error "boom" else Except.ok {}

/-! ### Theorems -/

/-- Helper: the name of a per-kind stats element is the kind's metric name,
whichever branch was taken. -/
theorem statElem_metricName (name : String) (now : Int) (v : Nat) (e : Option String) :
    (statElem name now v e).metricName = name := by
  cases e <;> rfl

/-- Helper: every sample carried by a per-kind stats element has the
timestamp the element was built with. -/
theorem statElem_timestamp (name : String) (now : Int) (v : Nat) (e : Option String) :
    ∀ mv ∈ (statElem name now v e).metricData.metricValues,
      ∀ p ∈ mv.sample, p.timestamp = now := by
  cases e <;> simp [statElem, errorMetric, countMetric]

/-- C1: with non-empty scope, if the registered rewrite function for the
active backend kind ("prometheus") returns an error, `GetMetricLabelSet` logs
that error and returns the empty `MetricLabelSet`; the error is not
propagated and the backend label-set lookup is never invoked. -/
theorem getMetricLabelSet_rewrite_error_fail_open
    (fns : String → Option ReplaceNamespaceFn)
    (backend : String → Int → Int → LabelSetData)
    (f : ReplaceNamespaceFn) (metric ns err : String) (start endT : Int)
    (hns : ns ≠ "") (hf : fns "prometheus" = some f)
    (herr : f metric ns = Except.error err) :
    GetMetricLabelSet fns backend metric ns start endT =
      { result := some {}, logged := [err], backendCalls := [] } := by
  unfold GetMetricLabelSet
  rw [if_pos hns, hf]
  simp only [herr]

/-- Witness for C1 at a concrete input. -/
theorem getMetricLabelSet_rewrite_error_fail_open_witness :
    GetMetricLabelSet failingRegistry constBackend "up" "team-a" 0 1 =
      { result := some {}, logged := ["bad"], backendCalls := [] } :=
  getMetricLabelSet_rewrite_error_fail_open failingRegistry constBackend
    failingReplaceFn "up" "team-a" "bad" 0 1 (by decide) rfl rfl

/-- C2 counterexample: with non-empty scope and no rewrite function
registered for "prometheus", the call does not return the empty
`MetricLabelSet`: invoking the nil function obtained from the registry map
panics, modelled as the `none` (non-returning) outcome. -/
theorem getMetricLabelSet_unregistered_counterexample :
    (GetMetricLabelSet emptyRegistry constBackend "up" "team-a" 0 1).result = none ∧
    (GetMetricLabelSet emptyRegistry constBackend "up" "team-a" 0 1).result ≠
      some { data := [] } := by
  exact ⟨rfl, by decide⟩

/-- C2 amended: with non-empty scope and no rewrite function registered for
the active backend kind, the operation does not return a value at all (the
nil-function invocation panics); nothing is logged and the backend lookup is
not invoked. -/
theorem getMetricLabelSet_unregistered_panics
    (fns : String → Option ReplaceNamespaceFn)
    (backend : String → Int → Int → LabelSetData)
    (metric ns : String) (start endT : Int)
    (hns : ns ≠ "") (hmiss : fns "prometheus" = none) :
    GetMetricLabelSet fns backend metric ns start endT =
      { result := none, logged := [], backendCalls := [] } := by
  unfold GetMetricLabelSet
  rw [if_pos hns, hmiss]

/-- Witness for the amended C2 at a concrete input. -/
theorem getMetricLabelSet_unregistered_panics_witness :
    GetMetricLabelSet emptyRegistry constBackend "up" "team-a" 0 1 =
      { result := none, logged := [], backendCalls := [] } :=
  getMetricLabelSet_unregistered_panics emptyRegistry constBackend
    "up" "team-a" 0 1 (by decide) rfl

/-- C7: with empty scope, `GetMetricLabelSet` bypasses the rewriter: the
backend receives the metric expression unmodified, the outcome is the same
for every registry (no rewrite function is consulted), nothing is logged and
the result wraps the backend data (empty scope is not an error path). -/
theorem getMetricLabelSet_empty_scope_bypass
    (fns fns2 : String → Option ReplaceNamespaceFn)
    (backend : String → Int → Int → LabelSetData)
    (metric : String) (start endT : Int) :
    GetMetricLabelSet fns backend metric "" start endT =
      { result := some { data := backend metric start endT },
        logged := [],
        backendCalls := [{ expr := metric, start := start, endT := endT }] } ∧
    GetMetricLabelSet fns backend metric "" start endT =
      GetMetricLabelSet fns2 backend metric "" start endT :=
  ⟨rfl, rfl⟩

/-- C6: the scope parameter has no influence on `GetMetric`: any two scopes
give the same result, which is the verbatim delegation of (expr, time) to
the backend instant query (paired with the nil error). -/
theorem getMetric_scope_noninterference
    (backendGetMetric : String → Int → Metric) (expr s1 s2 : String) (t : Int) :
    GetMetric backendGetMetric expr s1 t = GetMetric backendGetMetric expr s2 t ∧
    GetMetric backendGetMetric expr s1 t = (backendGetMetric expr t, none) :=
  ⟨rfl, rfl⟩

/-- C9: the error component of `GetMetric` and `GetMetricOverTime` is always
nil; failures can only travel inside the returned `Metric` value. -/
theorem getMetric_error_component_nil
    (bm : String → Int → Metric) (bmo : String → Int → Int → Int → Metric)
    (expr ns : String) (t start endT step : Int) :
    (GetMetric bm expr ns t).2 = none ∧
    (GetMetricOverTime bmo expr ns start endT step).2 = none :=
  ⟨rfl, rfl⟩

/-- Helper: the batched backend lookup (spec-modelled) preserves the input
names in order. -/
theorem backendBatchNamedMetrics_map_name (q : String → Except String MetricData)
    (names : List String) :
    (backendBatchNamedMetrics q names).map Metric.metricName = names := by
  induction names with
  | nil => rfl
  | cons n ns ih =>
    cases hq : q n <;> simp only [backendBatchNamedMetrics, List.map_cons, hq] at * <;>
      simp [ih]

/-- C5: for every list of metric names, `GetNamedMetrics` and
`GetNamedMetricsOverTime` return one result per input name, in input order,
and the element at position i depends only on the query outcome for the
name at position i (an error for one name is isolated to its element). -/
theorem getNamedMetrics_order_and_isolation
    (q qr : String → Except String MetricData) (names : List String)
    (t start endT step : Int) (opt : QueryOption) :
    ((GetNamedMetrics (fun ms _ _ => backendBatchNamedMetrics q ms)
        names t opt).results.length = names.length) ∧
    ((GetNamedMetrics (fun ms _ _ => backendBatchNamedMetrics q ms)
        names t opt).results.map Metric.metricName = names) ∧
    ((GetNamedMetricsOverTime (fun ms _ _ _ _ => backendBatchNamedMetrics qr ms)
        names start endT step opt).results.length = names.length) ∧
    ((GetNamedMetricsOverTime (fun ms _ _ _ _ => backendBatchNamedMetrics qr ms)
        names start endT step opt).results.map Metric.metricName = names) ∧
    (∀ (q2 : String → Except String MetricData) (i : Nat) (n : String),
      names[i]? = some n → q n = q2 n →
      (GetNamedMetrics (fun ms _ _ => backendBatchNamedMetrics q ms)
          names t opt).results[i]? =
        (GetNamedMetrics (fun ms _ _ => backendBatchNamedMetrics q2 ms)
          names t opt).results[i]?) := by
  refine ⟨?_, backendBatchNamedMetrics_map_name q names, ?_,
    backendBatchNamedMetrics_map_name qr names, ?_⟩
  · simp [GetNamedMetrics, backendBatchNamedMetrics]
  · simp [GetNamedMetricsOverTime, backendBatchNamedMetrics]
  · intro q2 i n hn hq
    unfold GetNamedMetrics backendBatchNamedMetrics
    rw [List.getElem?_map, List.getElem?_map, hn]
    simp [hq]

/-- Witness for C5 at a concrete input: changing the query outcome of "b"
does not change the element produced for "a". -/
theorem getNamedMetrics_order_and_isolation_witness :
    (GetNamedMetrics (fun ms _ _ => backendBatchNamedMetrics qOk ms)
        ["a", "b"] 0 ()).results[0]? =
      (GetNamedMetrics (fun ms _ _ => backendBatchNamedMetrics qFailB ms)
        ["a", "b"] 0 ()).results[0]? :=
  (getNamedMetrics_order_and_isolation qOk qOk ["a", "b"] 0 0 0 0 ()).2.2.2.2
    qFailB 0 "a" rfl rfl

/-- C3: when the cluster list succeeds, the cluster-count element of
`GetKubeSphereStats` carries the floored count, which is at least 1 (exactly
1 on an empty collection); and with listers returning 0 clusters, 3
workspace templates and 5 users without error, the result sequence is
exactly [cluster:1, workspace-template:3, user:5]. -/
theorem getKubeSphereStats_cluster_floor (now : Int) (cl : List Unit)
    (wkList usrList : ListResult Unit) :
    ((GetKubeSphereStats now (cl, none) wkList usrList).results[0]? =
      some (countMetric KubeSphereClusterCount now
        (if cl.length = 0 then 1 else cl.length))) ∧
    (1 ≤ if cl.length = 0 then 1 else cl.length) ∧
    (GetKubeSphereStats now ([], none) ([(), (), ()], none)
        ([(), (), (), (), ()], none) =
      { results := [countMetric KubeSphereClusterCount now 1,
                    countMetric KubeSphereWorkspaceCount now 3,
                    countMetric KubeSphereUserCount now 5] }) := by
  refine ⟨rfl, ?_, rfl⟩
  by_cases h : cl.length = 0 <;> simp [h]
  omega

/-- C4: both stats collectors always emit exactly one element per entity
kind, in the fixed kind order, and each element is that kind's error element
exactly when that kind's list failed, its count element otherwise — failures
never suppress the other kinds' elements. -/
theorem stats_per_kind_error_isolation (now : Int) (c w u : ListResult Unit)
    (workspace : String) (nsS dvS mbS rlS : List KObject)
    (nsE dvE mbE rlE : Option String) :
    ((GetKubeSphereStats now c w u).results.map Metric.metricName =
      [KubeSphereClusterCount, KubeSphereWorkspaceCount, KubeSphereUserCount]) ∧
    ((GetWorkspaceStats workspace now nsS dvS mbS rlS nsE dvE mbE rlE).results.map
        Metric.metricName =
      [WorkspaceNamespaceCount, WorkspaceDevopsCount, WorkspaceMemberCount,
       WorkspaceRoleCount]) ∧
    ((GetKubeSphereStats now c w u).results =
      [statElem KubeSphereClusterCount now
         (if c.1.length = 0 then 1 else c.1.length) c.2,
       statElem KubeSphereWorkspaceCount now w.1.length w.2,
       statElem KubeSphereUserCount now u.1.length u.2]) ∧
    ((GetWorkspaceStats workspace now nsS dvS mbS rlS nsE dvE mbE rlE).results =
      [statElem WorkspaceNamespaceCount now
         (listWithSelector nsS nsE (matchesSelector workspace)).1.length nsE,
       statElem WorkspaceDevopsCount now
         (listWithSelector dvS dvE (matchesSelector workspace)).1.length dvE,
       statElem WorkspaceMemberCount now
         (listWithSelector mbS mbE
           (fun o => matchesSelector workspace o && hasUserReference o)).1.length mbE,
       statElem WorkspaceRoleCount now
         (listWithSelector rlS rlE (matchesSelector workspace)).1.length rlE]) := by
  refine ⟨?_, ?_, ?_, ?_⟩
  · simp [GetKubeSphereStats, statElem_metricName]
  · simp [GetWorkspaceStats, statElem_metricName]
  · rfl
  · cases nsE <;> cases dvE <;> cases mbE <;> cases rlE <;> rfl

/-- C8 counterexample: two role bindings in workspace "ws1" referencing the
same user "alice" are counted as 2 by `GetWorkspaceStats`, while the number
of DISTINCT referenced members is 1 — the member-count element does not
equal the distinct-member count. -/
theorem getWorkspaceStats_member_distinct_counterexample :
    ((GetWorkspaceStats "ws1" 0 [] []
        [{ objLabels := [(WorkspaceLabelKey, "ws1"), (UserReferenceLabel, "alice")] },
         { objLabels := [(WorkspaceLabelKey, "ws1"), (UserReferenceLabel, "alice"),
                         ("extra", "x")] }]
        [] none none none none).results[2]? =
      some (countMetric WorkspaceMemberCount 0 2)) ∧
    distinctMemberCount "ws1"
        [{ objLabels := [(WorkspaceLabelKey, "ws1"), (UserReferenceLabel, "alice")] },
         { objLabels := [(WorkspaceLabelKey, "ws1"), (UserReferenceLabel, "alice"),
                         ("extra", "x")] }] = 1 := by
  exact ⟨rfl, rfl⟩

/-- C8 amended: with all four lists succeeding, the member-count element of
`GetWorkspaceStats` equals the NUMBER OF ROLE BINDINGS selected by the
workspace label-equality selector together with the user-reference-exists
requirement (duplicate user references are counted once per binding, not
deduplicated); the namespace, DevOps-project and role counts are the sizes
of the collections selected by the workspace label-equality selector alone. -/
theorem getWorkspaceStats_counts (workspace : String) (now : Int)
    (nsStore devopsStore memberStore roleStore : List KObject) :
    (GetWorkspaceStats workspace now nsStore devopsStore memberStore roleStore
        none none none none).results =
      [countMetric WorkspaceNamespaceCount now
         ((nsStore.filter (matchesSelector workspace)).length),
       countMetric WorkspaceDevopsCount now
         ((devopsStore.filter (matchesSelector workspace)).length),
       countMetric WorkspaceMemberCount now
         ((memberStore.filter
             (fun o => matchesSelector workspace o && hasUserReference o)).length),
       countMetric WorkspaceRoleCount now
         ((roleStore.filter (matchesSelector workspace)).length)] :=
  rfl

/-- C10: within one `GetKubeSphereStats` or `GetWorkspaceStats` call, every
sample carried by any element of the response has the single timestamp
captured at the start of the call — no two elements differ in timestamp. -/
theorem stats_uniform_timestamp (now : Int) (c w u : ListResult Unit)
    (workspace : String) (nsS dvS mbS rlS : List KObject)
    (nsE dvE mbE rlE : Option String) :
    (∀ m ∈ (GetKubeSphereStats now c w u).results,
      ∀ mv ∈ m.metricData.metricValues, ∀ p ∈ mv.sample, p.timestamp = now) ∧
    (∀ m ∈ (GetWorkspaceStats workspace now nsS dvS mbS rlS nsE dvE mbE rlE).results,
      ∀ mv ∈ m.metricData.metricValues, ∀ p ∈ mv.sample, p.timestamp = now) := by
  constructor
  · intro m hm
    have h3 : m = statElem KubeSphereClusterCount now
          (if c.1.length = 0 then 1 else c.1.length) c.2 ∨
        m = statElem KubeSphereWorkspaceCount now w.1.length w.2 ∨
        m = statElem KubeSphereUserCount now u.1.length u.2 := by
      simpa [GetKubeSphereStats] using hm
    rcases h3 with rfl | rfl | rfl <;> exact statElem_timestamp _ now _ _
  · intro m hm
    have h4 : m = statElem WorkspaceNamespaceCount now
          (listWithSelector nsS nsE (matchesSelector workspace)).1.length
          (listWithSelector nsS nsE (matchesSelector workspace)).2 ∨
        m = statElem WorkspaceDevopsCount now
          (listWithSelector dvS dvE (matchesSelector workspace)).1.length
          (listWithSelector dvS dvE (matchesSelector workspace)).2 ∨
        m = statElem WorkspaceMemberCount now
          (listWithSelector mbS mbE
            (fun o => matchesSelector workspace o && hasUserReference o)).1.length
          (listWithSelector mbS mbE
            (fun o => matchesSelector workspace o && hasUserReference o)).2 ∨
        m = statElem WorkspaceRoleCount now
          (listWithSelector rlS rlE (matchesSelector workspace)).1.length
          (listWithSelector rlS rlE (matchesSelector workspace)).2 := by
      simpa [GetWorkspaceStats] using hm
    rcases h4 with rfl | rfl | rfl | rfl <;> exact statElem_timestamp _ now _ _

/-- Witness for C10 at a concrete input: the cluster-count sample of a call
made at time 7 carries timestamp 7. -/
theorem stats_uniform_timestamp_witness :
    ({ timestamp := 7, value := 1 } : Point).timestamp = 7 :=
  (stats_uniform_timestamp 7 ([()], none) ([], none) ([], none) "w" [] [] [] []
      none none none none).1
    (countMetric KubeSphereClusterCount 7 1) (by decide)
    { sample := some { timestamp := 7, value := 1 } } (by decide)
    { timestamp := 7, value := 1 } rfl

end KubeSphereMonitoring
